import Mathlib

/-!
Verification of the terplounge streaming-session layer (server/src/session.rs,
server/src/api.rs, server/src/queue.rs) against its design specification.

Modelling conventions:
* Audio samples (Rust `f32`) are modelled as `Int`; none of the verified
  properties depend on floating-point arithmetic, only on buffer slicing.
* Timestamps (`DateTime<Utc>`) are modelled as `Nat`; `Utc::now()` becomes an
  explicit `now` parameter threaded into every store mutation.
* `Option<Sender<Message>>` (the outbound channel) is modelled by the `Bool`
  field `transcription_sender_tx` recording its presence; dropping the sender
  is setting it to `false`.
* Filesystem effects are reified as a list of `FsWrite` events; `File::create`
  truncates, so the on-disk state of a path is its last write in the list.
* A Rust panic (`unwrap`/`expect` on a missing value) is modelled as
  `Except.error ()`.
* The module `translate.rs` is not part of the provided sources; the types and
  functions it exports (`TranslationRequest`, `TranslationResponse`,
  `TranslationResponses`, `find_silence`) are modelled from the spec, as noted
  on each definition.
-/

/-- Modelled from the spec: translate.rs is absent from the sources.
Translation response `(session_id, sequence_number, segment_number,
num_segments, text, is_final)`; "the response is final for its chunk when
`segment_number == num_segments - 1`". -/
structure TranslationResponse where
  session_id : Nat
  sequence_number : Nat
  segment_number : Nat
  num_segments : Nat
  text : String
  is_final : Bool
  deriving DecidableEq, Repr

/-- Modelled from the spec: translate.rs is absent from the sources.
Translation request `(session_id, sequence_number, payload: samples, lang)`;
its construction sites in session.rs show exactly these fields. -/
structure TranslationRequest where
  session_id : Nat
  sequence_number : Nat
  payload : List Int
  lang : String
  deriving DecidableEq, Repr

/-- Modelled from the spec: the translation collection of translate.rs is
append-only; we model it as the list of responses in arrival order. -/
abbrev TranslationResponses := List TranslationResponse

/-- A response is final for its chunk when `segment_number == num_segments - 1`.
Stated as `segment_number + 1 == num_segments`, which agrees with the Rust
`usize` comparison whenever `num_segments ≥ 1` (for `num_segments = 0` the Rust
subtraction would underflow). -/
def isFinalSegment (r : TranslationResponse) : Bool :=
  r.segment_number + 1 == r.num_segments

/-- Modelled from the spec: translate.rs is absent from the sources.
`TranslationResponses::translation_count` — "a count of distinct completed
chunks": the number of distinct sequence numbers having a final response. -/
def translation_count (rs : TranslationResponses) : Nat :=
  (((rs : List TranslationResponse).filter isFinalSegment).map
      (fun r => r.sequence_number)).dedup.length

/-- Modelled from the spec: translate.rs is absent from the sources.
`TranslationResponses::add_translation` appends a response to the append-only
collection. -/
def add_translation (rs : TranslationResponses) (r : TranslationResponse) :
    TranslationResponses :=
  rs ++ [r]

/-- Chunk order on responses: by `sequence_number`, then `segment_number`. -/
def respLE (a b : TranslationResponse) : Bool :=
  decide (a.sequence_number < b.sequence_number) ||
    (a.sequence_number == b.sequence_number &&
      decide (a.segment_number ≤ b.segment_number))

/-- Insert into a list sorted by `respLE` (stable insertion sort step). -/
def insertResp (x : TranslationResponse) :
    List TranslationResponse → List TranslationResponse
  | [] => [x]
  | y :: ys => if respLE x y then x :: y :: ys else y :: insertResp x ys

/-- Sort responses into chunk order (stable insertion sort). -/
def sortResponses : List TranslationResponse → List TranslationResponse
  | [] => []
  | r :: rs => insertResp r (sortResponses rs)

/-- Modelled from the spec: translate.rs is absent from the sources.
`TranslationResponses::to_string` serializes the collection in chunk order
(`sequence_number`, then `segment_number`), joining the segment texts. -/
def responses_to_string (rs : TranslationResponses) : String :=
  String.intercalate (" ")
    ((sortResponses (rs : List TranslationResponse)).map (fun r => r.text))

/-- Modelled from the spec: translate.rs is absent from the sources.
`TranslationResponses::new_from_string` pre-seeds a restored session's
collection with the previously persisted transcript, as a single completed
response. -/
def new_from_string (transcript : String) (uuid : String) :
    TranslationResponses :=
  ([{ session_id := 0, sequence_number := 0, segment_number := 0,
      num_segments := 1, text := transcript, is_final := true }] :
    List TranslationResponse)

/-- Lean model of `SessionData` from session.rs. `translations` sits behind an
`Arc<Mutex<..>>` shared between clones; where that sharing matters the
operations below thread the updated collection into both the clone and the
stored record. Serde skips `id`, `transcription_sender_tx`, `valid`, `buffer`,
`silence_length`, `last_sequence`, `recording`, `recording_file`,
`transcript_file`, `translations` when serializing. -/
structure SessionData where
  id : Nat
  transcription_sender_tx : Bool
  language : String
  uuid : String
  resource : Option String
  sample_rate : Nat
  valid : Bool
  buffer : List Int
  silence_length : Nat
  sequence_number : Nat
  last_sequence : Option Nat
  recording : Bool
  recording_file : Option String
  transcript_file : Option String
  translations : TranslationResponses
  updated_at : Nat
  created_at : Nat
  deriving DecidableEq, Repr

/-- The serialized fields of `SessionData` that end up in `metadata.json`
(everything not marked `#[serde(skip_serializing)]`). -/
structure MetadataJson where
  language : String
  uuid : String
  resource : Option String
  sample_rate : Nat
  sequence_number : Nat
  updated_at : Nat
  created_at : Nat
  deriving DecidableEq, Repr

/-- A filesystem effect. `transcript` and `metadata` model `File::create`
followed by `write_all` (truncating writes); `wavAppend` models the
create-or-append WAV writer of `persist_session_data`. -/
inductive FsWrite where
  | transcript (path : String) (content : String)
  | metadata (path : String) (content : MetadataJson)
  | wavAppend (path : String) (samples : List Int)
  deriving DecidableEq, Repr

/-- Model of `json!(self)` for a `SessionData`, restricted to serialized fields, as
written by `write_metadata`. -/
def metadataOf (s : SessionData) : MetadataJson :=
  { language := s.language, uuid := s.uuid, resource := s.resource,
    sample_rate := s.sample_rate, sequence_number := s.sequence_number,
    updated_at := s.updated_at, created_at := s.created_at }

/-- The file writes performed by `SessionData::finalize_session`:
`record_transcript` writes the stringified collection when `transcript_file`
is set, then `write_metadata` writes `metadata.json` when `RECORDINGS_DIR` is
set. `recDir` is the value of the `RECORDINGS_DIR` environment variable. -/
def finalizeWrites (s : SessionData) (recDir : Option String) : List FsWrite :=
  (match s.transcript_file with
   | some f => [FsWrite.transcript f (responses_to_string s.translations)]
   | none => []) ++
  (match recDir with
   | some dir =>
       [FsWrite.metadata (dir ++ "/" ++ s.uuid ++ "/metadata.json")
         (metadataOf s)]
   | none => [])

/-- Model of `SessionData::finalize_session` (session.rs:151): write the transcript
file and metadata.json from `self` (a clone), then mutate the stored record:
take (drop) the sender, set `valid = false`; `mutate_session` stamps
`updated_at`. Returns the writes and the new stored record. There is no check
of `valid` anywhere in this function. -/
def finalize_session (s : SessionData) (recDir : Option String) (now : Nat) :
    List FsWrite × SessionData :=
  (finalizeWrites s recDir,
   { s with transcription_sender_tx := false, valid := false,
            updated_at := now })

/-- Model of `SessionData::status` (session.rs:183): `transcription_job_count` is the
session's `sequence_number`, `transcription_completed_count` its translation
count. -/
structure Status where
  language : String
  uuid : String
  resource : Option String
  sample_rate : Nat
  transcription_job_count : Nat
  transcription_completed_count : Nat
  deriving DecidableEq, Repr

def SessionData.status (s : SessionData) : Status :=
  { language := s.language, uuid := s.uuid, resource := s.resource,
    sample_rate := s.sample_rate,
    transcription_job_count := s.sequence_number,
    transcription_completed_count := translation_count s.translations }

/-- A concrete completed response for chunk 1, used in concrete instances. -/
def exResponse1 : TranslationResponse :=
  { session_id := 7, sequence_number := 1, segment_number := 0,
    num_segments := 1, text := "world", is_final := true }

/-- A concrete session used to instantiate hypotheses in witnesses and
counterexamples: a two-chunk session right after end-of-stream
(`last_sequence = 1`, `sequence_number = 2`). -/
def exSession : SessionData :=
  { id := 7, transcription_sender_tx := true, language := "de",
    uuid := "u-1", resource := none, sample_rate := 16000, valid := true,
    buffer := [1, 2, 3], silence_length := 0, sequence_number := 2,
    last_sequence := some 1, recording := true,
    recording_file := some ("rec/u-1/u-1.wav"),
    transcript_file := some ("rec/u-1/u-1.txt"),
    translations := [exResponse1],
    updated_at := 0, created_at := 0 }

/-- Outcome of one `process_transcription` call: the updated stored record,
the messages pushed onto the outbound channel, the file writes, and whether
the finalization branch ran. -/
structure PTResult where
  session : SessionData
  sent : List TranslationResponse
  writes : List FsWrite
  finalized : Bool
  deriving DecidableEq, Repr

/-- Model of `process_transcription` (session.rs:211). `s?` is the result of the store
lookup `get_session_sync(&session_id)`; the Rust code calls `.unwrap()` on it,
so an absent session is a panic, modelled `Except.error ()`. For a present
session: send the response when the sender exists (send failure only logged),
append it to the shared translation collection, then — with no check of
`valid` anywhere — finalize when `last_sequence` is set, the SESSION's
`sequence_number` is `≥ last`, the response is final for its chunk, and the
translation count (after the append, through the shared `Arc`) exceeds
`last`. -/
def process_transcription (s? : Option SessionData) (r : TranslationResponse)
    (recDir : Option String) (now : Nat) : Except Unit PTResult :=
  match s? with
  | none => Except.error ()
  | some s =>
    let sent := if s.transcription_sender_tx then [r] else []
    let s1 := { s with translations := add_translation s.translations r }
    match s.last_sequence with
    | some last =>
      if decide (last ≤ s.sequence_number) && isFinalSegment r
          && decide (last < translation_count s1.translations) then
        let p := finalize_session s1 recDir now
        Except.ok
          { session := p.2, sent := sent, writes := p.1, finalized := true }
      else
        Except.ok
          { session := s1, sent := sent, writes := [], finalized := false }
    | none =>
      Except.ok
        { session := s1, sent := sent, writes := [], finalized := false }

/-- Model of `persist_session_data` (session.rs:528): when a recording file is set,
create-or-append the first `length` samples of the session's buffer to the
WAV file. -/
def persist_session_data (s : SessionData) (length : Nat) : List FsWrite :=
  match s.recording_file with
  | some f => [FsWrite.wavAppend f (s.buffer.take length)]
  | none => []

/-- Outcome of `mark_session_for_closure`: updated record, successfully
enqueued requests, file writes. -/
structure ClosureResult where
  session : SessionData
  enqueued : List TranslationRequest
  writes : List FsWrite
  deriving DecidableEq, Repr

/-- Model of `mark_session_for_closure` (session.rs:474). If `sequence_number == 0`
the session was never used: drop the sender and return. Otherwise persist the
whole buffer to the WAV file, enqueue a final request carrying the buffer and
the current `sequence_number`, then set `last_sequence` to it, clear the
buffer, and set `sequence_number = last_sequence + 1`. `mutate_session`
stamps `updated_at := now`. -/
def mark_session_for_closure (s : SessionData) (now : Nat) : ClosureResult :=
  if s.sequence_number = 0 then
    { session := { s with transcription_sender_tx := false,
                          updated_at := now },
      enqueued := [], writes := [] }
  else
    let payload := s.buffer
    let w := persist_session_data s payload.length
    let req : TranslationRequest :=
      { session_id := s.id, sequence_number := s.sequence_number,
        payload := payload, lang := s.language }
    let last := s.sequence_number
    { session := { s with buffer := [], last_sequence := some last,
                          sequence_number := last + 1, updated_at := now },
      enqueued := [req], writes := w }

/-- Outcome of `user_message`: the stored record afterwards (`none` when the
store lookup failed), successfully enqueued requests, and file writes. -/
structure UMResult where
  session : Option SessionData
  enqueued : List TranslationRequest
  writes : List FsWrite
  deriving DecidableEq, Repr

/-- Model of `user_message` (session.rs:305) for a binary frame whose payload decodes
to the samples `v`. The function is parameterized by `find_silence`
(translate.rs is absent from the sources; the spec gives its contract) and by
the constant `SEND_SAMPLE_MINIMUM_TIME_SECONDS` (same module,
`minChunkSeconds` here), and `enqueueOk` records whether the enqueue
succeeded. Faithful to the source: the frame is appended to the STORED
buffer, but `find_silence`, the payload and the WAV persist all use the stale
clone taken before the append; the cut and the `sequence_number` bump are
then applied to the stored record. On enqueue failure the sender is dropped
and `valid` set false, the appended buffer left uncut. -/
def user_message (find_silence : List Int → Nat → Option Nat)
    (minChunkSeconds : Nat) (s? : Option SessionData) (v : List Int)
    (enqueueOk : Bool) (now : Nat) : UMResult :=
  match s? with
  | none => { session := none, enqueued := [], writes := [] }
  | some s =>
    if s.transcription_sender_tx = false then
      { session := some s, enqueued := [], writes := [] }
    else
      let stored1 := { s with buffer := s.buffer ++ v, updated_at := now }
      match find_silence s.buffer s.sample_rate with
      | none => { session := some stored1, enqueued := [], writes := [] }
      | some pivot =>
        let sil := if pivot = minChunkSeconds * s.sample_rate then
            s.silence_length + pivot else 0
        let payload := s.buffer.take pivot
        let w := persist_session_data s pivot
        let req : TranslationRequest :=
          { session_id := s.id, sequence_number := s.sequence_number,
            payload := payload, lang := s.language }
        if enqueueOk then
          let cut := { stored1 with
            silence_length := sil,
            buffer := stored1.buffer.drop pivot,
            sequence_number := stored1.sequence_number + 1 }
          { session := some cut, enqueued := [req], writes := w }
        else
          let invalidated := { stored1 with
            transcription_sender_tx := false,
            valid := false }
          { session := some invalidated, enqueued := [], writes := w }

/-- Model of `SavedSessionData` (session.rs:62), deserialized from `metadata.json`;
serde defaults the missing `transcript` field to `None`. -/
structure SavedSessionData where
  language : String
  uuid : String
  resource : Option String
  sample_rate : Nat
  updated_at : Nat
  created_at : Nat
  transcript : Option String
  deriving DecidableEq, Repr

/-- The reconstruction of one stored session in `restore_sessions`
(session.rs:582): invalid, empty buffer, `sequence_number = 1`,
`last_sequence = Some(1)`, collection pre-seeded from the stored transcript
(or a placeholder message when it is missing). -/
def restoreOne (dir : String) (id : Nat) (s : SavedSessionData) :
    SessionData :=
  { id := id, transcription_sender_tx := false, language := s.language,
    uuid := s.uuid, resource := s.resource, sample_rate := s.sample_rate,
    valid := false, buffer := [], silence_length := 0, sequence_number := 1,
    last_sequence := some 1, recording := false,
    recording_file := some (dir ++ "/" ++ s.uuid ++ "/" ++ s.uuid ++ ".wav"),
    transcript_file := some (dir ++ "/" ++ s.uuid ++ "/" ++ s.uuid ++ ".txt"),
    translations :=
      new_from_string
        (match s.transcript with
         | some t => t
         | none => "transcript not found! This is probably a bug.")
        s.uuid,
    updated_at := s.updated_at, created_at := s.created_at }

/-- The metadata-reading loop of `restore_sessions` (session.rs:553): for
each directory entry, `if let Ok(contents) = read_to_string(metadata.json)`
skips the entry when the READ fails, but `serde_json::from_str(&contents)?`
propagates a PARSE failure, aborting the whole restore. A readable
`<uuid>.txt` overwrites the `transcript` field. `readFile` models
`std::fs::read_to_string`, `parse` models `serde_json::from_str`, and
`entries` lists `(file_name, is_dir)` for the recordings directory. -/
def readSavedSessions (dir : String) (readFile : String → Option String)
    (parse : String → Option SavedSessionData) :
    List (String × Bool) → Except Unit (List SavedSessionData)
  | [] => Except.ok []
  | (name, isDir) :: rest =>
    if isDir then
      match readFile (dir ++ "/" ++ name ++ "/metadata.json") with
      | none => readSavedSessions dir readFile parse rest
      | some contents =>
        match parse contents with
        | none => Except.error ()
        | some saved =>
          let saved1 :=
            match readFile (dir ++ "/" ++ name ++ "/" ++ saved.uuid
                ++ ".txt") with
            | some t => { saved with transcript := some t }
            | none => saved
          match readSavedSessions dir readFile parse rest with
          | Except.ok tail => Except.ok (saved1 :: tail)
          | Except.error e => Except.error e
    else
      readSavedSessions dir readFile parse rest

/-- Model of `restore_sessions` (session.rs:550): nothing happens when
`RECORDINGS_DIR` is unset; otherwise read the saved sessions (aborting on a
parse failure) and insert the reconstructed records under fresh ids 0, 1, …
in order. -/
def restore_sessions (recDir : Option String)
    (readFile : String → Option String)
    (parse : String → Option SavedSessionData)
    (entries : List (String × Bool)) : Except Unit (List SessionData) :=
  match recDir with
  | none => Except.ok []
  | some dir =>
    match readSavedSessions dir readFile parse entries with
    | Except.error e => Except.error e
    | Except.ok saved =>
      Except.ok ((saved.enum).map (fun p => restoreOne dir p.1 p.2))

/-- The listen-address selection in `serve` (api.rs:200). The source consults
the environment variable named `" LISTEN"` — with a leading space — and falls
back to `127.0.0.1:3030`. `env` models `std::env::var`; the `.parse()` of a
present value is kept as the string itself (the claims concern which variable
is consulted, not address syntax). -/
def listenAddress (env : String → Option String) : String :=
  match env (" LISTEN") with
  | some x => x
  | none => "127.0.0.1:3030"

/-- Rust `str::parse::<u32>`: an optional leading `+`, then at least one
ASCII digit, value below 2^32; anything else is an error. Implemented over
the character list of the string. -/
def parse_u32 (s : String) : Option Nat :=
  let cs := s.toList
  let t := match cs with
    | '+' :: rest => rest
    | _ => cs
  if t = [] then none
  else if t.all (fun c => c.isDigit) then
    let n := t.foldl (fun acc c => acc * 10 + (c.toNat - 48)) 0
    if n < 4294967296 then some n else none
  else none

/-- The parameters extracted from a `/chat` upgrade request. -/
structure ChatParams where
  lang : String
  resource : Option String
  sample_rate : Nat
  deriving DecidableEq, Repr

/-- The query-parameter handling of the `/chat` route (api.rs:92): `lang`
defaults to `"de"`, `rate` defaults to `"44100"`, `resource` is passed
through; the rate string goes through `.parse::<u32>().unwrap()`, so an
unparseable `rate` is a panic, modelled `Except.error ()`. `get` models
`HashMap::get` on the query map. -/
def chat_params (get : String → Option String) : Except Unit ChatParams :=
  let lang := match get ("lang") with | some l => l | none => "de"
  let resource := get ("resource")
  let rateStr := match get ("rate") with | some rate => rate | none => "44100"
  match parse_u32 rateStr with
  | some rate =>
    Except.ok { lang := lang, resource := resource, sample_rate := rate }
  | none => Except.error ()

/-- Replace the `updated_at` stamp inside a metadata write; other writes are
untouched. Used to relate the writes of consecutive finalizations. -/
def setMetaUpdatedAt (t : Nat) : FsWrite → FsWrite
  | FsWrite.metadata path m => FsWrite.metadata path { m with updated_at := t }
  | w => w

/-- A completed single-segment response for chunk 0. -/
def hello0 : TranslationResponse :=
  { session_id := 7, sequence_number := 0, segment_number := 0,
    num_segments := 1, text := "hello", is_final := true }

/-- The session `exSession` after a finalization pass: `valid = false`, sender dropped. -/
def invalidSession : SessionData :=
  { exSession with valid := false, transcription_sender_tx := false }

/-- A session that never produced a chunk: `sequence_number = 0`. -/
def freshSession : SessionData :=
  { exSession with
    sequence_number := 0,
    last_sequence := none,
    buffer := [],
    translations := [] }

/-- The saved metadata of the two-chunk session of the spec's restart
scenario, as `serde_json::from_str` yields it (no `transcript` key in
`metadata.json`, so the field defaults to `None`). -/
def savedA : SavedSessionData :=
  { language := "de", uuid := "u-1", resource := none, sample_rate := 16000,
    updated_at := 12, created_at := 10, transcript := none }

/-- The status actually reported for any restored session. -/
def statusA : Status :=
  { language := "de", uuid := "u-1", resource := none, sample_rate := 16000,
    transcription_job_count := 1, transcription_completed_count := 1 }

/-- Filesystem contents for the restart scenario: one stored session with
readable metadata and a transcript file. -/
def readFileA : String → Option String := fun p =>
  if p = "rec/u-1/metadata.json" then some ("metaA")
  else if p = "rec/u-1/u-1.txt" then some ("hello world") else none

/-- The JSON parser restricted to the restart scenario's contents. -/
def parseA : String → Option SavedSessionData := fun c =>
  if c = "metaA" then some savedA else none

/-- Saved metadata of a second, well-formed stored session. -/
def savedB : SavedSessionData :=
  { language := "en", uuid := "u-2", resource := none, sample_rate := 44100,
    updated_at := 2, created_at := 1, transcript := none }

/-- Filesystem contents with one corrupt and one well-formed metadata file. -/
def readFileB : String → Option String := fun p =>
  if p = "rec/bad/metadata.json" then some ("oops")
  else if p = "rec/good/metadata.json" then some ("metaB") else none

/-- The JSON parser for these contents: `"oops"` does not parse. -/
def parseB : String → Option SavedSessionData := fun c =>
  if c = "metaB" then some savedB else none

/-- Filesystem contents where only session `b` has readable metadata. -/
def readFileC : String → Option String := fun p =>
  if p = "rec/b/metadata.json" then some ("metaB") else none

/-- An environment holding a conventional `LISTEN` variable and nothing
else — in particular no variable whose name starts with a space. -/
def envWithListen : String → Option String := fun k =>
  if k = "LISTEN" then some ("0.0.0.0:8080") else none

/-- A `/chat` query string with no parameters at all. -/
def emptyQuery : String → Option String := fun _ => none

/-- A `/chat` query string whose `rate` parameter is not a number. -/
def badRateQuery : String → Option String := fun k =>
  if k = "rate" then some ("r8") else none

/-- A concrete segmenter for witnesses: cut at 2 when the buffer has at
least 2 samples. -/
def witnessCut : List Int → Nat → Option Nat := fun b _ =>
  if 2 ≤ b.length then some 2 else none

/-- C4: for every session with `sequence_number > 0`, end-of-stream enqueues
one final request carrying the current buffer and `sequence_number`, then
sets `last_sequence` to that `sequence_number`, clears the buffer, and sets
`sequence_number = last_sequence + 1`. -/
theorem mark_session_for_closure_flushes (s : SessionData) (now : Nat)
    (h : 0 < s.sequence_number) :
    (mark_session_for_closure s now).enqueued =
      [{ session_id := s.id, sequence_number := s.sequence_number,
         payload := s.buffer, lang := s.language }] ∧
    (mark_session_for_closure s now).session.last_sequence =
      some s.sequence_number ∧
    (mark_session_for_closure s now).session.buffer = [] ∧
    (mark_session_for_closure s now).session.sequence_number =
      s.sequence_number + 1 := by
  have h0 : ¬ s.sequence_number = 0 := Nat.pos_iff_ne_zero.mp h
  simp [mark_session_for_closure, h0]

/-- C4 witness: the flush behavior at the concrete session `exSession`
(`sequence_number = 2`). -/
theorem mark_session_for_closure_flushes_witness :
    0 < exSession.sequence_number ∧
    ((mark_session_for_closure exSession 3).enqueued =
      [{ session_id := exSession.id,
         sequence_number := exSession.sequence_number,
         payload := exSession.buffer, lang := exSession.language }] ∧
    (mark_session_for_closure exSession 3).session.last_sequence =
      some exSession.sequence_number ∧
    (mark_session_for_closure exSession 3).session.buffer = [] ∧
    (mark_session_for_closure exSession 3).session.sequence_number =
      exSession.sequence_number + 1) :=
  ⟨by decide, mark_session_for_closure_flushes exSession 3 (by decide)⟩

/-- C6: a session with `sequence_number = 0` at end-of-stream only has its
outbound channel dropped: nothing is enqueued, no file is written,
`last_sequence`, the buffer and `sequence_number` are untouched. -/
theorem mark_session_for_closure_unused (s : SessionData) (now : Nat)
    (h : s.sequence_number = 0) :
    (mark_session_for_closure s now).enqueued = [] ∧
    (mark_session_for_closure s now).writes = [] ∧
    (mark_session_for_closure s now).session.transcription_sender_tx =
      false ∧
    (mark_session_for_closure s now).session.last_sequence =
      s.last_sequence ∧
    (mark_session_for_closure s now).session.buffer = s.buffer ∧
    (mark_session_for_closure s now).session.sequence_number = 0 := by
  simp [mark_session_for_closure, h]

/-- C6 witness: the zero-audio behavior at the concrete session
`freshSession`. -/
theorem mark_session_for_closure_unused_witness :
    freshSession.sequence_number = 0 ∧
    ((mark_session_for_closure freshSession 3).enqueued = [] ∧
    (mark_session_for_closure freshSession 3).writes = [] ∧
    (mark_session_for_closure freshSession 3).session.transcription_sender_tx
      = false ∧
    (mark_session_for_closure freshSession 3).session.last_sequence =
      freshSession.last_sequence ∧
    (mark_session_for_closure freshSession 3).session.buffer =
      freshSession.buffer ∧
    (mark_session_for_closure freshSession 3).session.sequence_number = 0) :=
  ⟨by decide, mark_session_for_closure_unused freshSession 3 (by decide)⟩

/-- C9: the source consults the environment variable `" LISTEN"` (leading
space), so in an environment where the conventional `LISTEN` variable is set
to `0.0.0.0:8080` the server still listens on the default `127.0.0.1:3030`. -/
theorem listen_env_var_is_misspelled :
    envWithListen ("LISTEN") = some ("0.0.0.0:8080") ∧
    listenAddress envWithListen = "127.0.0.1:3030" := by
  constructor
  · rfl
  · rfl

/-- C10: on a `/chat` upgrade, a missing `lang` defaults to `"de"`, a missing
`rate` defaults to `44100`, and a present but unparseable `rate` makes the
handler panic (modelled as `Except.error ()`). -/
theorem chat_params_defaults (get : String → Option String) :
    (∀ p, chat_params get = Except.ok p → get ("lang") = none →
      p.lang = "de") ∧
    (get ("rate") = none →
      (chat_params get).map ChatParams.sample_rate = Except.ok 44100) ∧
    (∀ r, get ("rate") = some r → parse_u32 r = none →
      chat_params get = Except.error ()) := by
  refine ⟨?_, ?_, ?_⟩
  · intro p hp hlang
    rcases hgr : get ("rate") with _ | rs
    · have h44 : parse_u32 ("44100") = some 44100 := by decide
      simp only [chat_params, hlang, hgr, h44, Except.ok.injEq] at hp
      subst hp
      rfl
    · rcases hpr : parse_u32 rs with _ | rate
      · simp only [chat_params, hlang, hgr, hpr] at hp
        exact Except.noConfusion hp
      · simp only [chat_params, hlang, hgr, hpr, Except.ok.injEq] at hp
        subst hp
        rfl
  · intro hrate
    have h44 : parse_u32 ("44100") = some 44100 := by decide
    simp only [chat_params, hrate, h44]
    rfl
  · intro r hr hparse
    simp only [chat_params, hr, hparse]

/-- C10 witness: the defaults on an empty query, and the panic on
`rate=r8`. -/
theorem chat_params_defaults_witness :
    ((chat_params emptyQuery).map ChatParams.sample_rate = Except.ok 44100) ∧
    chat_params badRateQuery = Except.error () :=
  ⟨(chat_params_defaults emptyQuery).2.1 rfl,
   (chat_params_defaults badRateQuery).2.2 ("r8") rfl (by decide)⟩

/-- C1 counterexample: for a present session whose `valid` is false, the
response is NOT discarded — it is appended to the translation collection and
even triggers a second finalization; the claimed log-and-discard path does
not exist in `process_transcription`. -/
theorem process_transcription_invalid_not_discarded :
    invalidSession.valid = false ∧
    (process_transcription (some invalidSession) hello0 (some ("rec")) 9).map
        (fun res => res.session.translations) =
      Except.ok (invalidSession.translations ++ [hello0]) ∧
    (process_transcription (some invalidSession) hello0 (some ("rec")) 9).map
        PTResult.finalized = Except.ok true := by
  refine ⟨rfl, rfl, rfl⟩

/-- C1 (amended): `process_transcription` performs no lookup or validity
handling: an absent session id is a panic (`unwrap` on `None`), and for a
present session — whatever its `valid` flag — the response is appended to the
translation collection unconditionally and sent to the client exactly when
the outbound sender exists. -/
theorem process_transcription_no_validity_check (s : SessionData)
    (r : TranslationResponse) (recDir : Option String) (now : Nat) :
    process_transcription none r recDir now = Except.error () ∧
    (process_transcription (some s) r recDir now).map
        (fun res => res.session.translations) =
      Except.ok (s.translations ++ [r]) ∧
    (process_transcription (some s) r recDir now).map PTResult.sent =
      Except.ok (if s.transcription_sender_tx then [r] else []) := by
  refine ⟨rfl, ?_, ?_⟩ <;>
  · cases h : s.last_sequence with
    | none =>
      simp only [process_transcription, h, add_translation]
      rfl
    | some last =>
      simp only [process_transcription, h, add_translation]
      split <;> simp [finalize_session, Except.map]

/-- C2 counterexample: a second invocation of `finalize_session` on the
already-finalized `exSession` is not a no-op — it performs file writes — and
those writes differ from the first invocation's (the metadata's `updated_at`
moved), so the on-disk state after two invocations is not the state after
one. -/
theorem finalize_session_twice_not_noop :
    (finalize_session (finalize_session exSession (some ("rec")) 5).2
        (some ("rec")) 9).1 ≠ [] ∧
    (finalize_session (finalize_session exSession (some ("rec")) 5).2
        (some ("rec")) 9).1 ≠ (finalize_session exSession (some ("rec")) 5).1 := by
  refine ⟨by decide, by decide⟩

/-- C2 (amended): `finalize_session` has no validity guard; a second
invocation re-writes the transcript file and `metadata.json`. The rewritten
transcript is identical (the collection did not change), the rewritten
metadata differs only in its `updated_at` stamp (it now carries the first
invocation's mutation time), `valid` is false after either invocation, and
the stored record changes only by its `updated_at` stamp. -/
theorem finalize_session_second_call (s : SessionData)
    (recDir : Option String) (now1 now2 : Nat) :
    (finalize_session s recDir now1).2.valid = false ∧
    (finalize_session (finalize_session s recDir now1).2 recDir now2).2.valid
      = false ∧
    (finalize_session (finalize_session s recDir now1).2 recDir now2).1 =
      ((finalize_session s recDir now1).1).map (setMetaUpdatedAt now1) ∧
    (finalize_session (finalize_session s recDir now1).2 recDir now2).2 =
      { (finalize_session s recDir now1).2 with updated_at := now2 } := by
  refine ⟨rfl, rfl, ?_, rfl⟩
  simp only [finalize_session, finalizeWrites]
  rcases h1 : s.transcript_file with _ | f <;> rcases h2 : recDir with _ | d <;>
    simp [h1, h2, setMetaUpdatedAt, metadataOf]

/-- C3 counterexample: a final response for chunk 0 arrives at `exSession`
(`last_sequence = 1`): its own `sequence_number` is `< 1`, yet finalization
fires, because the code compares the SESSION's `sequence_number` (= 2), not
the response's, against `last_sequence`. -/
theorem process_transcription_ignores_response_sequence :
    exSession.last_sequence = some 1 ∧
    hello0.sequence_number < 1 ∧
    (process_transcription (some exSession) hello0 (some ("rec")) 9).map
        PTResult.finalized = Except.ok true := by
  refine ⟨rfl, by decide, rfl⟩

/-- C3 (amended): finalization is invoked exactly when `last_sequence = L` is
set, the SESSION's `sequence_number` is `≥ L`, the response is final for its
chunk (`segment_number = num_segments - 1`), and the translation count after
appending this response exceeds `L`; the response's own `sequence_number` is
never consulted. -/
theorem process_transcription_finalize_iff (s : SessionData)
    (r : TranslationResponse) (recDir : Option String) (now : Nat) :
    (process_transcription (some s) r recDir now).map PTResult.finalized =
        Except.ok true ↔
      ∃ last, s.last_sequence = some last ∧ last ≤ s.sequence_number ∧
        r.segment_number + 1 = r.num_segments ∧
        last < translation_count (add_translation s.translations r) := by
  cases h : s.last_sequence with
  | none => simp [process_transcription, h, Except.map]
  | some last =>
    simp only [process_transcription, h]
    split
    case isTrue hc =>
      simp only [isFinalSegment, Bool.and_eq_true, decide_eq_true_eq,
        beq_iff_eq] at hc
      constructor
      · intro _
        exact ⟨last, rfl, hc.1.1, hc.1.2, hc.2⟩
      · intro _
        rfl
    case isFalse hc =>
      simp only [isFinalSegment, Bool.and_eq_true, decide_eq_true_eq,
        beq_iff_eq] at hc
      constructor
      · intro hfalse
        simp [Except.map] at hfalse
      · rintro ⟨last', hl, h1, h2, h3⟩
        rw [Option.some.injEq] at hl
        subst hl
        exact absurd ⟨⟨h1, h2⟩, h3⟩ hc

/-- C5: when a binary frame triggers a cut at pivot `p` and the enqueue
succeeds, the enqueued payload is the first `p` samples of the stored buffer
(the old buffer with the frame appended), the new stored buffer is that
buffer with its first `p` samples removed, and `sequence_number` grows by
exactly 1. The pivot bound `p ≤` old-buffer length is the segmenter contract
from the spec (`find_silence` runs on the pre-append snapshot). -/
theorem user_message_cut (fs : List Int → Nat → Option Nat) (mcs : Nat)
    (s : SessionData) (v : List Int) (now : Nat) (pivot : Nat)
    (hsender : s.transcription_sender_tx = true)
    (hpivot : fs s.buffer s.sample_rate = some pivot)
    (hle : pivot ≤ s.buffer.length) :
    (user_message fs mcs (some s) v true now).enqueued =
      [{ session_id := s.id, sequence_number := s.sequence_number,
         payload := (s.buffer ++ v).take pivot, lang := s.language }] ∧
    (user_message fs mcs (some s) v true now).session.map
        SessionData.buffer = some ((s.buffer ++ v).drop pivot) ∧
    (user_message fs mcs (some s) v true now).session.map
        SessionData.sequence_number = some (s.sequence_number + 1) := by
  have htake : (s.buffer ++ v).take pivot = s.buffer.take pivot :=
    List.take_append_of_le_length hle
  simp [user_message, hsender, hpivot, htake]

/-- C5 witness: the cut behavior at `exSession` (buffer `[1,2,3]`), frame
`[4]`, pivot 2. -/
theorem user_message_cut_witness :
    exSession.transcription_sender_tx = true ∧
    witnessCut exSession.buffer exSession.sample_rate = some 2 ∧
    2 ≤ exSession.buffer.length ∧
    ((user_message witnessCut 3 (some exSession) [4] true 11).enqueued =
      [{ session_id := exSession.id,
         sequence_number := exSession.sequence_number,
         payload := (exSession.buffer ++ [4]).take 2,
         lang := exSession.language }] ∧
    (user_message witnessCut 3 (some exSession) [4] true 11).session.map
        SessionData.buffer = some ((exSession.buffer ++ [4]).drop 2) ∧
    (user_message witnessCut 3 (some exSession) [4] true 11).session.map
        SessionData.sequence_number =
      some (exSession.sequence_number + 1)) :=
  ⟨rfl, by decide, by decide,
   user_message_cut witnessCut 3 exSession [4] 11 2 rfl (by decide)
     (by decide)⟩

/-- C7 counterexample: restoring the stored two-chunk session of the restart
scenario yields `transcription_job_count = 1` and
`transcription_completed_count = 1`, not 2 and 2: `restore_sessions`
hard-codes `sequence_number = 1` and seeds the collection with a single
response built from the stored transcript. -/
theorem restored_status_not_two :
    (restore_sessions (some ("rec")) readFileA parseA [("u-1", true)]).map
        (fun l => l.map SessionData.status) = Except.ok [statusA] ∧
    statusA.transcription_job_count ≠ 2 ∧
    statusA.transcription_completed_count ≠ 2 := by
  refine ⟨rfl, by decide, by decide⟩

/-- C7 (amended): every restored session reports
`transcription_job_count = 1` and `transcription_completed_count = 1`,
whatever the pre-restart counts were, with the stored language, UUID,
resource and sample rate. -/
theorem restored_status (dir : String) (id : Nat) (s : SavedSessionData) :
    (restoreOne dir id s).status =
      { language := s.language, uuid := s.uuid, resource := s.resource,
        sample_rate := s.sample_rate, transcription_job_count := 1,
        transcription_completed_count := 1 } := by
  cases h : s.transcript with
  | none => simp [restoreOne, SessionData.status, h]; rfl
  | some t => simp [restoreOne, SessionData.status, h]; rfl

/-- C8 counterexample: with one corrupt and one well-formed stored session,
the corrupt metadata file aborts the whole restore
(`serde_json::from_str(..)?` propagates), so even the well-formed session is
not restored. -/
theorem restore_aborts_on_bad_metadata :
    readFileB ("rec/good/metadata.json") = some ("metaB") ∧
    parseB ("metaB") = some savedB ∧
    restore_sessions (some ("rec")) readFileB parseB
      [("bad", true), ("good", true)] = Except.error () := by
  refine ⟨rfl, rfl, rfl⟩

/-- Helper for C8: when every successfully read metadata file also parses,
the restore scan succeeds, restoring exactly the directory entries whose
metadata is readable (unreadable ones are skipped, the scan continues). -/
theorem readSavedSessions_ok (dir : String)
    (readFile : String → Option String)
    (parse : String → Option SavedSessionData)
    (entries : List (String × Bool))
    (h : ∀ e ∈ entries, e.2 = true →
      ∀ c, readFile (dir ++ "/" ++ e.1 ++ "/metadata.json") = some c →
        parse c ≠ none) :
    ∃ l, readSavedSessions dir readFile parse entries = Except.ok l ∧
      l.length = (entries.filter (fun e =>
        e.2 && (readFile (dir ++ "/" ++ e.1
          ++ "/metadata.json")).isSome)).length := by
  revert h
  induction entries with
  | nil => exact fun _ => ⟨[], rfl, rfl⟩
  | cons e rest ih =>
    intro h
    obtain ⟨name, isDir⟩ := e
    have hrest : ∀ e ∈ rest, e.2 = true →
        ∀ c, readFile (dir ++ "/" ++ e.1 ++ "/metadata.json") = some c →
          parse c ≠ none :=
      fun e he => h e (List.mem_cons_of_mem _ he)
    obtain ⟨l, hl, hlen⟩ := ih hrest
    cases isDir with
    | false =>
      refine ⟨l, ?_, ?_⟩
      · simpa [readSavedSessions] using hl
      · simpa [List.filter] using hlen
    | true =>
      cases hr : readFile (dir ++ "/" ++ name ++ "/metadata.json") with
      | none =>
        refine ⟨l, ?_, ?_⟩
        · simp [readSavedSessions, hr, hl]
        · simp [List.filter_cons, hr, hlen]
      | some c =>
        have hp := h (name, true) (List.mem_cons_self _ _) rfl c hr
        cases hc : parse c with
        | none => exact absurd hc hp
        | some saved =>
          refine ⟨(match readFile (dir ++ "/" ++ name ++ "/" ++ saved.uuid
              ++ ".txt") with
            | some t => { saved with transcript := some t }
            | none => saved) :: l, ?_, ?_⟩
          · simp [readSavedSessions, hr, hc, hl]
          · simp [List.filter_cons, hr, hlen]

/-- C8 (amended): during restore, a stored session whose metadata file
cannot be READ is skipped and restore continues with the remaining
directories; but a metadata file that reads and fails to PARSE aborts the
whole restore. Under the hypothesis that all readable metadata parses,
restore succeeds and yields one session per directory entry with readable
metadata. -/
theorem restore_skips_unreadable_metadata (dir : String)
    (readFile : String → Option String)
    (parse : String → Option SavedSessionData)
    (entries : List (String × Bool))
    (h : ∀ e ∈ entries, e.2 = true →
      ∀ c, readFile (dir ++ "/" ++ e.1 ++ "/metadata.json") = some c →
        parse c ≠ none) :
    ∃ l, restore_sessions (some dir) readFile parse entries = Except.ok l ∧
      l.length = (entries.filter (fun e =>
        e.2 && (readFile (dir ++ "/" ++ e.1
          ++ "/metadata.json")).isSome)).length := by
  obtain ⟨l, hl, hlen⟩ := readSavedSessions_ok dir readFile parse entries h
  refine ⟨(l.enum).map (fun p => restoreOne dir p.1 p.2), ?_, ?_⟩
  · simp [restore_sessions, hl]
  · simpa using hlen

/-- C8 witness: directories `a` (metadata unreadable), `b` (readable and
parseable) and a non-directory entry `x`; restore succeeds and restores
exactly one session. -/
theorem restore_skips_unreadable_metadata_witness :
    (∀ e ∈ ([("a", true), ("b", true), ("x", false)] :
        List (String × Bool)), e.2 = true →
      ∀ c, readFileC ("rec" ++ "/" ++ e.1 ++ "/metadata.json") = some c →
        parseB c ≠ none) ∧
    ∃ l, restore_sessions (some ("rec")) readFileC parseB
        [("a", true), ("b", true), ("x", false)] = Except.ok l ∧
      l.length = (([("a", true), ("b", true), ("x", false)] :
        List (String × Bool)).filter (fun e =>
          e.2 && (readFileC ("rec" ++ "/" ++ e.1
            ++ "/metadata.json")).isSome)).length := by
  have hw : ∀ e ∈ ([("a", true), ("b", true), ("x", false)] :
      List (String × Bool)), e.2 = true →
      ∀ c, readFileC ("rec" ++ "/" ++ e.1 ++ "/metadata.json") = some c →
        parseB c ≠ none := by
    intro e he htrue c hc
    fin_cases he <;> simp_all [readFileC, parseB]
  exact ⟨hw,
    restore_skips_unreadable_metadata ("rec") readFileC parseB _ hw⟩
